import Mathlib

/-!
Verification of the Booking Lifecycle & Action-Token Engine, shallowly
embedded from `src/server/routes/emailActions_Manager.ts`.

The route handler `GET /:action/:token` is embedded as the pure function
`handle`: it takes the database state, an environment (current time plus
fault flags for the two awaited operations that can throw inside the
`try` block — the notification send and the commit), and the two URL
parameters.  It returns the HTTP response, the resulting database state,
and a trace of the store/dispatcher events in the order the source code
performs them.  Transaction semantics: a rollback discards every change
made since `beginTransaction`, so on the catch path the resulting
database is the input database.
-/

namespace EmailActions

/-- Booking status enumeration, exactly the values of the spec's data model. -/
inductive BookingStatus
  | available
  | pending
  | approved
  | rejected
  | cancelled
deriving DecidableEq, Repr

/-- Rendering of a status as it appears interpolated into response messages. -/
def BookingStatus.toStr : BookingStatus → String
  | .available => "available"
  | .pending => "pending"
  | .approved => "approved"
  | .rejected => "rejected"
  | .cancelled => "cancelled"

/-- A row of `email_action_tokens`: id, token value, bound booking id, bound
action, used flag, used-at timestamp, expiry timestamp. -/
structure TokenRecord where
  id : Nat
  token : String
  booking_id : Nat
  action : String
  used : Bool
  used_at : Option Nat
  expires : Nat
deriving DecidableEq, Repr

/-- A row of `bookings` (the fields this handler reads). -/
structure Booking where
  id : Nat
  infrastructure_id : Nat
  status : BookingStatus
deriving DecidableEq, Repr

/-- A row of `infrastructures` (the fields this handler reads). -/
structure Infrastructure where
  id : Nat
  name : String
deriving DecidableEq, Repr

/-- The relational store.  `released` records the booking ids whose underlying
timeslot has been freed back to available accounting by the resource-release
primitive. -/
structure DB where
  tokens : List TokenRecord
  bookings : List Booking
  infrastructures : List Infrastructure
  released : List Nat
deriving DecidableEq, Repr

/-- Store/dispatcher events, in the order the handler performs them. -/
inductive Event
  | beginTx
  | queryTokens (tok : String)
  | queryBookings (id : Nat)
  | updateBookingStatus (id : Nat) (s : BookingStatus)
  | callStoredProc (id : Nat) (s : BookingStatus)
  | resourceRelease (id : Nat)
  | markTokenUsed (id : Nat)
  | queryInfrastructures (id : Nat)
  | sendEmail (bookingId : Nat) (outcome : BookingStatus)
  | commit
  | rollback
deriving DecidableEq, Repr

/-- Discriminates which `res.status(...).json(...)` site produced the response. -/
inductive RespKind
  | invalidAction
  | invalidOrExpiredToken
  | bookingNotFound
  | alreadyProcessed (current : BookingStatus)
  | success (act : String)
  | serverError
deriving DecidableEq, Repr

/-- The JSON response: HTTP status, `success` flag, `message`, and the optional
`currentStatus` / `action` fields, plus the site discriminator. -/
structure Resp where
  status : Nat
  success : Bool
  message : String
  currentStatus : Option BookingStatus
  action : Option String
  kind : RespKind
deriving DecidableEq, Repr

/-- Execution environment: the store clock `now`, and whether the two awaited
operations inside the `try` block succeed (`emailOk` for
`emailService.sendBookingStatusUpdate`, `commitOk` for `connection.commit`). -/
structure Env where
  now : Nat
  emailOk : Bool
  commitOk : Bool
deriving DecidableEq, Repr

/-- Result of one handler execution: response, final store state, event trace. -/
structure HResult where
  resp : Resp
  db : DB
  trace : List Event
deriving DecidableEq, Repr

/-- The `WHERE token = ? AND used = 0 AND expires > NOW()` predicate. -/
def tokenMatches (tok : String) (now : Nat) (t : TokenRecord) : Bool :=
  t.token == tok && t.used == false && decide (now < t.expires)

/-- `SELECT * FROM email_action_tokens WHERE token = ? AND used = 0 AND
expires > NOW()`, taking the first row. -/
def findToken (db : DB) (tok : String) (now : Nat) : Option TokenRecord :=
  db.tokens.find? (tokenMatches tok now)

/-- `SELECT * FROM bookings WHERE id = ?`, taking the first row. -/
def findBooking (db : DB) (i : Nat) : Option Booking :=
  db.bookings.find? (fun b => b.id == i)

/-- `SELECT * FROM infrastructures WHERE id = ?`, taking the first row. -/
def findInfrastructure (db : DB) (i : Nat) : Option Infrastructure :=
  db.infrastructures.find? (fun f => f.id == i)

/-- `UPDATE bookings SET status = ... WHERE id = ?`. -/
def setBookingStatus (db : DB) (i : Nat) (s : BookingStatus) : DB :=
  { db with bookings :=
      db.bookings.map (fun b => if b.id = i then { b with status := s } else b) }

/-- `UPDATE email_action_tokens SET used = 1, used_at = NOW() WHERE id = ?`. -/
def markUsed (db : DB) (i : Nat) (now : Nat) : DB :=
  { db with tokens :=
      db.tokens.map (fun t =>
        if t.id = i then { t with used := true, used_at := some now } else t) }

/-- Modelled from the spec: the stored procedure `AdminRejectOrCancelBooking`
(invoked by `CALL AdminRejectOrCancelBooking(?, ?)`; its body is not under
`src/`).  Per the spec it sets the booking's status to the given terminal
status and atomically frees the underlying timeslot back to available
accounting — the resource-release primitive of the Availability Engine.
Returns the updated store and the events the call performs. -/
def adminRejectOrCancelBooking (db : DB) (i : Nat) (s : BookingStatus) :
    DB × List Event :=
  let db1 := setBookingStatus db i s
  ({ db1 with released := db1.released ++ [i] },
   [Event.callStoredProc i s, Event.resourceRelease i])

/-- The literal 500 response of the `catch` block. -/
def serverErrorResp : Resp :=
  { status := 500, success := false, message := "Error processing the action",
    currentStatus := none, action := none, kind := RespKind.serverError }

/-- The literal 200 success response. -/
def successResp (act : String) : Resp :=
  { status := 200, success := true,
    message := "Booking " ++ (if act = "approve" then "approved" else "rejected")
      ++ " successfully",
    currentStatus := none, action := some act, kind := RespKind.success act }

/-- The handler of `GET /:action/:token`, translated statement by statement
from `emailActions_Manager.ts`. -/
def handle (db : DB) (env : Env) (act tok : String) : HResult :=
  if act ≠ "approve" ∧ act ≠ "reject" then
    { resp := { status := 400, success := false, message := "Invalid action",
                currentStatus := none, action := none,
                kind := RespKind.invalidAction },
      db := db, trace := [] }
  else
    let tr0 : List Event := [Event.beginTx, Event.queryTokens tok]
    match findToken db tok env.now with
    | none =>
      { resp := { status := 400, success := false,
                  message := "Invalid or expired email-action token",
                  currentStatus := none, action := none,
                  kind := RespKind.invalidOrExpiredToken },
        db := db, trace := tr0 }
    | some tokenRecord =>
      let tr1 := tr0 ++ [Event.queryBookings tokenRecord.booking_id]
      match findBooking db tokenRecord.booking_id with
      | none =>
        { resp := { status := 404, success := false,
                    message := "Booking not found",
                    currentStatus := none, action := none,
                    kind := RespKind.bookingNotFound },
          db := db, trace := tr1 }
      | some booking =>
        if booking.status ≠ BookingStatus.pending then
          let db1 := markUsed db tokenRecord.id env.now
          let tr2 := tr1 ++ [Event.markTokenUsed tokenRecord.id]
          if env.commitOk then
            { resp := { status := 400, success := false,
                        message := "This booking has already been processed. Its current status is: "
                          ++ booking.status.toStr,
                        currentStatus := some booking.status, action := none,
                        kind := RespKind.alreadyProcessed booking.status },
              db := db1, trace := tr2 ++ [Event.commit] }
          else
            { resp := serverErrorResp, db := db,
              trace := tr2 ++ [Event.rollback] }
        else
          let step :=
            if act = "approve" then
              (setBookingStatus db booking.id BookingStatus.approved,
               [Event.updateBookingStatus booking.id BookingStatus.approved])
            else if act = "reject" then
              adminRejectOrCancelBooking db booking.id BookingStatus.rejected
            else (db, ([] : List Event))
          let db1 := markUsed step.1 tokenRecord.id env.now
          let tr2 := tr1 ++ step.2 ++
            [Event.markTokenUsed tokenRecord.id,
             Event.queryInfrastructures booking.infrastructure_id]
          match findInfrastructure db1 booking.infrastructure_id with
          | some _ =>
            let outcome :=
              if act = "approve" then BookingStatus.approved
              else BookingStatus.rejected
            let tr3 := tr2 ++ [Event.sendEmail booking.id outcome]
            if env.emailOk then
              if env.commitOk then
                { resp := successResp act, db := db1,
                  trace := tr3 ++ [Event.commit] }
              else
                { resp := serverErrorResp, db := db,
                  trace := tr3 ++ [Event.rollback] }
            else
              { resp := serverErrorResp, db := db,
                trace := tr3 ++ [Event.rollback] }
          | none =>
            if env.commitOk then
              { resp := successResp act, db := db1,
                trace := tr2 ++ [Event.commit] }
            else
              { resp := serverErrorResp, db := db,
                trace := tr2 ++ [Event.rollback] }

/-- The status of the booking with the given id, if present. -/
def bookingStatusOf (db : DB) (i : Nat) : Option BookingStatus :=
  (findBooking db i).map Booking.status

/-- Every token record with the given id is marked used. -/
def tokenUsedIn (db : DB) (i : Nat) : Prop :=
  ∀ t ∈ db.tokens, t.id = i → t.used = true

/-- `eventBefore a b tr` holds when some occurrence of `a` strictly precedes
some occurrence of `b` in `tr`. -/
def eventBefore (a b : Event) : List Event → Bool
  | [] => false
  | e :: rest => (decide (e = a) && decide (b ∈ rest)) || eventBefore a b rest

/-- Token values determine token records (no two distinct rows share a value). -/
def DB.tokensUnique (db : DB) : Prop :=
  ∀ t₁ ∈ db.tokens, ∀ t₂ ∈ db.tokens, t₁.token = t₂.token → t₁ = t₂

/-- The literal 400 response of the failed-token-validation branch. -/
def invalidTokenResp : Resp :=
  { status := 400, success := false,
    message := "Invalid or expired email-action token",
    currentStatus := none, action := none,
    kind := RespKind.invalidOrExpiredToken }

/-- Test store: booking 42 is `pending` on infrastructure 5; token `t1`
(id 1) is bound to (42, approve), unused, expiring at 100. -/
def dbPending : DB :=
  { tokens := [{ id := 1, token := "t1", booking_id := 42, action := "approve",
                 used := false, used_at := none, expires := 100 }],
    bookings := [{ id := 42, infrastructure_id := 5,
                   status := BookingStatus.pending }],
    infrastructures := [{ id := 5, name := "lab" }],
    released := [] }

/-- Test store: booking 7 is already `approved`; token `t2` (id 2) is bound
to (7, reject), unused, expiring at 100. -/
def dbApproved : DB :=
  { tokens := [{ id := 2, token := "t2", booking_id := 7, action := "reject",
                 used := false, used_at := none, expires := 100 }],
    bookings := [{ id := 7, infrastructure_id := 5,
                   status := BookingStatus.approved }],
    infrastructures := [{ id := 5, name := "lab" }],
    released := [] }

/-- Test store: token `t3` (id 3) is valid but bound to booking 99, which
does not exist. -/
def dbOrphan : DB :=
  { tokens := [{ id := 3, token := "t3", booking_id := 99, action := "approve",
                 used := false, used_at := none, expires := 100 }],
    bookings := [],
    infrastructures := [{ id := 5, name := "lab" }],
    released := [] }

/-- Test store: booking 42 is `pending` but no infrastructure record exists
for its infrastructure id 5. -/
def dbNoInfra : DB :=
  { tokens := [{ id := 4, token := "t4", booking_id := 42, action := "approve",
                 used := false, used_at := none, expires := 100 }],
    bookings := [{ id := 42, infrastructure_id := 5,
                   status := BookingStatus.pending }],
    infrastructures := [],
    released := [] }

/-- Environment with both awaited operations succeeding, clock at 50. -/
def envOk : Env := { now := 50, emailOk := true, commitOk := true }

/-- Environment where the notification dispatcher throws. -/
def envEmailFail : Env := { now := 50, emailOk := false, commitOk := true }

/-- Environment where the commit throws. -/
def envCommitFail : Env := { now := 50, emailOk := true, commitOk := false }

/-! ### Helper lemmas -/

theorem markUsed_bookings (db : DB) (i n : Nat) :
    (markUsed db i n).bookings = db.bookings := rfl

theorem markUsed_released (db : DB) (i n : Nat) :
    (markUsed db i n).released = db.released := rfl

@[simp] theorem findInfrastructure_markUsed (db : DB) (i n j : Nat) :
    findInfrastructure (markUsed db i n) j = findInfrastructure db j := rfl

@[simp] theorem findInfrastructure_setBookingStatus (db : DB) (i : Nat)
    (s : BookingStatus) (j : Nat) :
    findInfrastructure (setBookingStatus db i s) j = findInfrastructure db j := rfl

@[simp] theorem findInfrastructure_reject (db : DB) (i : Nat)
    (s : BookingStatus) (j : Nat) :
    findInfrastructure (adminRejectOrCancelBooking db i s).1 j
      = findInfrastructure db j := rfl

theorem setBookingStatus_tokens (db : DB) (i : Nat) (s : BookingStatus) :
    (setBookingStatus db i s).tokens = db.tokens := rfl

@[simp] theorem setBookingStatus_released (db : DB) (i : Nat)
    (s : BookingStatus) :
    (setBookingStatus db i s).released = db.released := rfl

theorem reject_tokens (db : DB) (i : Nat) (s : BookingStatus) :
    ((adminRejectOrCancelBooking db i s).1).tokens = db.tokens := rfl

@[simp] theorem reject_events (db : DB) (i : Nat) (s : BookingStatus) :
    (adminRejectOrCancelBooking db i s).2
      = [Event.callStoredProc i s, Event.resourceRelease i] := rfl

@[simp] theorem reject_released (db : DB) (i : Nat) (s : BookingStatus) :
    ((adminRejectOrCancelBooking db i s).1).released = db.released ++ [i] := rfl

theorem tokenMatches_iff (tok : String) (now : Nat) (t : TokenRecord) :
    tokenMatches tok now t = true ↔
      (t.token = tok ∧ t.used = false ∧ now < t.expires) := by
  simp [tokenMatches, and_assoc]

theorem findToken_eq_none_iff (db : DB) (tok : String) (now : Nat) :
    findToken db tok now = none ↔
      ∀ t ∈ db.tokens, ¬(t.token = tok ∧ t.used = false ∧ now < t.expires) := by
  simp [findToken, List.find?_eq_none, tokenMatches, and_assoc]

/-- After the token found by the validation query has been marked used, the
validation query finds nothing for the same value (at any later clock),
provided token values are unique. -/
theorem find?_none_after_mark (l : List TokenRecord) (tok : String)
    (now m n : Nat) (t : TokenRecord)
    (huniq : ∀ t₁ ∈ l, ∀ t₂ ∈ l, t₁.token = t₂.token → t₁ = t₂)
    (hfind : l.find? (tokenMatches tok now) = some t) :
    (l.map (fun r =>
        if r.id = t.id then { r with used := true, used_at := some n } else r)).find?
      (tokenMatches tok m) = none := by
  have ht_mem : t ∈ l := List.mem_of_find?_eq_some hfind
  have ht_match : tokenMatches tok now t = true := List.find?_some hfind
  rw [List.find?_eq_none]
  intro r hr
  rw [List.mem_map] at hr
  obtain ⟨r₀, hr₀, rfl⟩ := hr
  by_cases hid : r₀.id = t.id
  · simp [tokenMatches, hid]
  · simp only [if_neg hid]
    intro hm
    rw [tokenMatches_iff] at hm ht_match
    exact hid (congrArg TokenRecord.id
      (huniq r₀ hr₀ t ht_mem (hm.1.trans ht_match.1.symm)))

@[simp] theorem findBooking_markUsed (db : DB) (i n j : Nat) :
    findBooking (markUsed db i n) j = findBooking db j := rfl

@[simp] theorem findBooking_reject (db : DB) (i : Nat) (s : BookingStatus)
    (j : Nat) :
    findBooking (adminRejectOrCancelBooking db i s).1 j
      = findBooking (setBookingStatus db i s) j := rfl

/-- The status update at the id of the row found by the lookup is visible to a
subsequent lookup at the same key. -/
theorem find?_map_setStatus (l : List Booking) (j : Nat) (s : BookingStatus)
    (b : Booking) (h : l.find? (fun x => x.id == j) = some b) :
    (l.map (fun x => if x.id = b.id then { x with status := s } else x)).find?
      (fun x => x.id == j) = some { b with status := s } := by
  rw [List.find?_map]
  have hp : ((fun x : Booking => x.id == j) ∘
      (fun x => if x.id = b.id then { x with status := s } else x))
        = fun x => x.id == j := by
    funext x
    by_cases hx : x.id = b.id <;> simp [hx]
  rw [hp, h]
  simp

theorem findBooking_setBookingStatus (db : DB) (j : Nat) (b : Booking)
    (s : BookingStatus) (hb : findBooking db j = some b) :
    findBooking (setBookingStatus db b.id s) j = some { b with status := s } :=
  find?_map_setStatus db.bookings j s b hb

/-- Once the token validation query has returned a row, no later branch of the
handler produces the invalid-or-expired-token response. -/
theorem handle_kind_not_invalid (db : DB) (env : Env) (act tok : String)
    (t : TokenRecord) (hft : findToken db tok env.now = some t) :
    (handle db env act tok).resp.kind ≠ RespKind.invalidOrExpiredToken := by
  by_cases hg : act ≠ "approve" ∧ act ≠ "reject"
  · simp [handle, hg]
  · have hact : act = "approve" ∨ act = "reject" := by
      rcases not_and_or.mp hg with h' | h'
      · exact Or.inl (not_not.mp h')
      · exact Or.inr (not_not.mp h')
    rcases hfb : findBooking db t.booking_id with _ | b
    · rcases hact with ha | ha <;> subst ha <;> simp [handle, hft, hfb]
    · by_cases hst : b.status = BookingStatus.pending
      · rcases hinf : findInfrastructure db b.infrastructure_id with _ | f <;>
          cases hc : env.commitOk <;> cases he : env.emailOk <;>
          rcases hact with ha | ha <;> subst ha <;>
          simp [handle, hft, hfb, hst, hinf, hc, he, serverErrorResp, successResp]
      · cases hc : env.commitOk <;>
          rcases hact with ha | ha <;> subst ha <;>
          simp [handle, hft, hfb, hst, hc, serverErrorResp]

/-- Any execution whose response carries a true success flag went through the
full success path: the action was valid, the token validation query found a
row, and the resulting store's token table is that row's id marked used. -/
theorem handle_success_inversion (db : DB) (env : Env) (act tok : String)
    (h : (handle db env act tok).resp.success = true) :
    (act = "approve" ∨ act = "reject") ∧
    ∃ t, findToken db tok env.now = some t ∧
      (handle db env act tok).db.tokens
        = db.tokens.map (fun r =>
            if r.id = t.id then { r with used := true, used_at := some env.now }
            else r) := by
  by_cases hg : act ≠ "approve" ∧ act ≠ "reject"
  · simp [handle, hg] at h
  · have hact : act = "approve" ∨ act = "reject" := by
      rcases not_and_or.mp hg with h' | h'
      · exact Or.inl (not_not.mp h')
      · exact Or.inr (not_not.mp h')
    refine ⟨hact, ?_⟩
    rcases hft : findToken db tok env.now with _ | t
    · rcases hact with ha | ha <;> subst ha <;> simp [handle, hft] at h
    · refine ⟨t, rfl, ?_⟩
      rcases hfb : findBooking db t.booking_id with _ | b
      · rcases hact with ha | ha <;> subst ha <;> simp [handle, hft, hfb] at h
      · by_cases hst : b.status = BookingStatus.pending
        · rcases hinf : findInfrastructure db b.infrastructure_id with _ | f <;>
            cases hc : env.commitOk <;> cases he : env.emailOk <;>
            rcases hact with ha | ha <;> subst ha <;>
            simp [handle, hft, hfb, hst, hinf, hc, he, serverErrorResp,
              successResp] at h ⊢ <;>
            simp [markUsed, setBookingStatus, adminRejectOrCancelBooking]
        · cases hc : env.commitOk <;>
            rcases hact with ha | ha <;> subst ha <;>
            simp [handle, hft, hfb, hst, hc, serverErrorResp] at h

theorem tokenUsedIn_markUsed (db : DB) (i n : Nat) :
    tokenUsedIn (markUsed db i n) i := by
  intro t ht hid
  simp only [markUsed, List.mem_map] at ht
  obtain ⟨t₀, ht₀, rfl⟩ := ht
  by_cases h : t₀.id = i
  · simp [h]
  · simp only [if_neg h] at hid
    exact absurd hid h

/-! ### Claim theorems -/

/-- C9: when the action path segment is neither `approve` nor `reject`, the
endpoint responds 400 Invalid action with a false success flag, the store is
left exactly as it was, and no store event at all is performed. -/
theorem invalid_action_store_untouched (db : DB) (env : Env) (act tok : String)
    (h1 : act ≠ "approve") (h2 : act ≠ "reject") :
    (handle db env act tok).resp.status = 400 ∧
    (handle db env act tok).resp.success = false ∧
    (handle db env act tok).resp.kind = RespKind.invalidAction ∧
    (handle db env act tok).db = db ∧
    (handle db env act tok).trace = [] := by
  simp [handle, h1, h2]

theorem invalid_action_store_untouched_witness :
    ("cancel" : String) ≠ "approve" ∧ ("cancel" : String) ≠ "reject" ∧
    (handle dbPending envOk "cancel" "t1").resp.status = 400 ∧
    (handle dbPending envOk "cancel" "t1").db = dbPending ∧
    (handle dbPending envOk "cancel" "t1").trace = [] := by
  have h := invalid_action_store_untouched dbPending envOk "cancel" "t1"
    (by decide) (by decide)
  exact ⟨by decide, by decide, h.1, h.2.2.2.1, h.2.2.2.2⟩

/-- C3: with a valid token whose bound booking is no longer `pending`, the
handler marks the token consumed, commits that change, responds 400 with the
already-processed message carrying the booking's current status, and leaves
the booking records unchanged. -/
theorem already_processed_consumes_token (db : DB) (env : Env) (act tok : String)
    (t : TokenRecord) (b : Booking)
    (hact : act = "approve" ∨ act = "reject")
    (hft : findToken db tok env.now = some t)
    (hfb : findBooking db t.booking_id = some b)
    (hst : b.status ≠ BookingStatus.pending)
    (hc : env.commitOk = true) :
    (handle db env act tok).resp.status = 400 ∧
    (handle db env act tok).resp.success = false ∧
    (handle db env act tok).resp.kind = RespKind.alreadyProcessed b.status ∧
    (handle db env act tok).resp.currentStatus = some b.status ∧
    (handle db env act tok).db = markUsed db t.id env.now ∧
    (handle db env act tok).db.bookings = db.bookings ∧
    Event.commit ∈ (handle db env act tok).trace := by
  rcases hact with ha | ha <;> subst ha <;>
    simp [handle, hft, hfb, hst, hc, markUsed_bookings]

theorem already_processed_consumes_token_witness :
    findToken dbApproved "t2" envOk.now
      = some ⟨2, "t2", 7, "reject", false, none, 100⟩ ∧
    (handle dbApproved envOk "reject" "t2").resp.status = 400 ∧
    (handle dbApproved envOk "reject" "t2").resp.currentStatus
      = some BookingStatus.approved ∧
    (handle dbApproved envOk "reject" "t2").db.bookings = dbApproved.bookings := by
  have h := already_processed_consumes_token dbApproved envOk "reject" "t2"
    ⟨2, "t2", 7, "reject", false, none, 100⟩ ⟨7, 5, BookingStatus.approved⟩
    (Or.inr rfl) (by decide) (by decide) (by decide) rfl
  exact ⟨by decide, h.1, h.2.2.2.1, h.2.2.2.2.2.1⟩

/-- C8 counterexample: with a valid token bound to a missing booking, the
handler answers 404 but never issues a rollback (nor a commit): the claim's
"the transaction is rolled back" is false on the code, which returns from the
`try` block leaving the transaction open for `connection.release()`. -/
theorem booking_missing_rollback_refuted :
    (handle dbOrphan envOk "approve" "t3").resp.status = 404 ∧
    Event.rollback ∉ (handle dbOrphan envOk "approve" "t3").trace ∧
    Event.commit ∉ (handle dbOrphan envOk "approve" "t3").trace := by decide

/-- C8 (amended): with a valid token whose bound booking is absent, the
handler reports 404 Booking not found; it issues neither a rollback nor a
commit, and since no write has happened the store is unchanged — in
particular no booking change and the token is not marked used. -/
theorem booking_missing_404_store_unchanged (db : DB) (env : Env)
    (act tok : String) (t : TokenRecord)
    (hact : act = "approve" ∨ act = "reject")
    (hft : findToken db tok env.now = some t)
    (hfb : findBooking db t.booking_id = none) :
    (handle db env act tok).resp.status = 404 ∧
    (handle db env act tok).resp.success = false ∧
    (handle db env act tok).resp.kind = RespKind.bookingNotFound ∧
    (handle db env act tok).db = db ∧
    Event.rollback ∉ (handle db env act tok).trace ∧
    Event.commit ∉ (handle db env act tok).trace := by
  rcases hact with ha | ha <;> subst ha <;> simp [handle, hft, hfb]

theorem booking_missing_404_store_unchanged_witness :
    findToken dbOrphan "t3" envOk.now
      = some ⟨3, "t3", 99, "approve", false, none, 100⟩ ∧
    (handle dbOrphan envOk "approve" "t3").resp.status = 404 ∧
    (handle dbOrphan envOk "approve" "t3").db = dbOrphan := by
  have h := booking_missing_404_store_unchanged dbOrphan envOk "approve" "t3"
    ⟨3, "t3", 99, "approve", false, none, 100⟩ (Or.inl rfl) (by decide) (by decide)
  exact ⟨by decide, h.1, h.2.2.2.1⟩

/-- C10: with a valid token, a `pending` booking, and no infrastructure record
for the booking's infrastructure id, the transition and the token consumption
are still committed and the endpoint answers 200 success, but the notification
dispatcher is never invoked. -/
theorem missing_infra_commits_without_email (db : DB) (env : Env)
    (act tok : String) (t : TokenRecord) (b : Booking)
    (hact : act = "approve" ∨ act = "reject")
    (hft : findToken db tok env.now = some t)
    (hfb : findBooking db t.booking_id = some b)
    (hst : b.status = BookingStatus.pending)
    (hinf : findInfrastructure db b.infrastructure_id = none)
    (hc : env.commitOk = true) :
    (handle db env act tok).resp.status = 200 ∧
    (handle db env act tok).resp.success = true ∧
    Event.commit ∈ (handle db env act tok).trace ∧
    (∀ i o, Event.sendEmail i o ∉ (handle db env act tok).trace) ∧
    tokenUsedIn (handle db env act tok).db t.id ∧
    bookingStatusOf (handle db env act tok).db t.booking_id
      = some (if act = "approve" then BookingStatus.approved
              else BookingStatus.rejected) := by
  rcases hact with ha | ha <;> subst ha
  · have hfb2 := findBooking_setBookingStatus db t.booking_id b
      BookingStatus.approved hfb
    simp [handle, hft, hfb, hst, hinf, hc, successResp, bookingStatusOf, hfb2,
      tokenUsedIn_markUsed]
  · have hfb2 := findBooking_setBookingStatus db t.booking_id b
      BookingStatus.rejected hfb
    simp [handle, hft, hfb, hst, hinf, hc, successResp, bookingStatusOf, hfb2,
      tokenUsedIn_markUsed]

theorem missing_infra_commits_without_email_witness :
    findToken dbNoInfra "t4" envOk.now
      = some ⟨4, "t4", 42, "approve", false, none, 100⟩ ∧
    findInfrastructure dbNoInfra 5 = none ∧
    (handle dbNoInfra envOk "approve" "t4").resp.status = 200 ∧
    Event.commit ∈ (handle dbNoInfra envOk "approve" "t4").trace ∧
    bookingStatusOf (handle dbNoInfra envOk "approve" "t4").db 42
      = some (if ("approve" : String) = "approve" then BookingStatus.approved
              else BookingStatus.rejected) := by
  have h := missing_infra_commits_without_email dbNoInfra envOk "approve" "t4"
    ⟨4, "t4", 42, "approve", false, none, 100⟩
    ⟨42, 5, BookingStatus.pending⟩
    (Or.inl rfl) (by decide) (by decide) (by decide) (by decide) rfl
  exact ⟨by decide, by decide, h.1, h.2.2.1, h.2.2.2.2.2⟩

/-- C7: on a `pending` booking reached with a valid token, action approve
sets the status to `approved` and performs no resource release at all, while
action reject sets the status to `rejected` through the stored-procedure
call, which frees the underlying timeslot (resource release) before the
transaction's commit. -/
theorem approve_reject_side_effects (db : DB) (env : Env) (tok : String)
    (t : TokenRecord) (b : Booking)
    (hft : findToken db tok env.now = some t)
    (hfb : findBooking db t.booking_id = some b)
    (hst : b.status = BookingStatus.pending)
    (hc : env.commitOk = true) (he : env.emailOk = true) :
    (bookingStatusOf (handle db env "approve" tok).db t.booking_id
        = some BookingStatus.approved ∧
      (handle db env "approve" tok).db.released = db.released ∧
      (∀ i, Event.resourceRelease i ∉ (handle db env "approve" tok).trace) ∧
      Event.commit ∈ (handle db env "approve" tok).trace) ∧
    (bookingStatusOf (handle db env "reject" tok).db t.booking_id
        = some BookingStatus.rejected ∧
      (handle db env "reject" tok).db.released = db.released ++ [b.id] ∧
      Event.callStoredProc b.id BookingStatus.rejected
        ∈ (handle db env "reject" tok).trace ∧
      eventBefore (Event.resourceRelease b.id) Event.commit
        (handle db env "reject" tok).trace = true) := by
  have hfa := findBooking_setBookingStatus db t.booking_id b
    BookingStatus.approved hfb
  have hfr := findBooking_setBookingStatus db t.booking_id b
    BookingStatus.rejected hfb
  rcases hinf : findInfrastructure db b.infrastructure_id with _ | f <;>
    simp [handle, hft, hfb, hst, hc, he, hinf, bookingStatusOf, hfa, hfr,
      markUsed_released, eventBefore]

theorem approve_reject_side_effects_witness :
    findToken dbPending "t1" envOk.now
      = some ⟨1, "t1", 42, "approve", false, none, 100⟩ ∧
    bookingStatusOf (handle dbPending envOk "approve" "t1").db 42
      = some BookingStatus.approved ∧
    bookingStatusOf (handle dbPending envOk "reject" "t1").db 42
      = some BookingStatus.rejected ∧
    (handle dbPending envOk "reject" "t1").db.released
      = dbPending.released ++ [42] := by
  have h := approve_reject_side_effects dbPending envOk "t1"
    ⟨1, "t1", 42, "approve", false, none, 100⟩ ⟨42, 5, BookingStatus.pending⟩
    (by decide) (by decide) (by decide) rfl rfl
  exact ⟨by decide, h.1.1, h.2.1, h.2.2.1⟩

/-- C5 counterexample: token `t1` is bound at creation to action `approve`
(its `action` column is `"approve"`), yet presenting it on the `reject` URL
segment is not reported as a validation failure — the handler performs the
rejection and answers 200 success. -/
theorem action_mismatch_counterexample :
    dbPending.tokens.map TokenRecord.action = ["approve"] ∧
    (handle dbPending envOk "reject" "t1").resp.success = true ∧
    (handle dbPending envOk "reject" "t1").resp.status = 200 ∧
    bookingStatusOf (handle dbPending envOk "reject" "t1").db 42
      = some BookingStatus.rejected := by decide

/-- C5 (amended): the handler validates the token only by value, used flag
and expiry, and trusts the action in the URL segment: when the URL action
diverges from the token's bound action, the divergence is silently accepted
and the URL's action is the one performed. -/
theorem url_action_trusted_over_binding (db : DB) (env : Env) (tok : String)
    (t : TokenRecord) (b : Booking)
    (hft : findToken db tok env.now = some t)
    (_hbound : t.action = "approve")
    (hfb : findBooking db t.booking_id = some b)
    (hst : b.status = BookingStatus.pending)
    (hc : env.commitOk = true) (he : env.emailOk = true) :
    (handle db env "reject" tok).resp.success = true ∧
    (handle db env "reject" tok).resp.status = 200 ∧
    (handle db env "reject" tok).resp.kind = RespKind.success "reject" ∧
    bookingStatusOf (handle db env "reject" tok).db t.booking_id
      = some BookingStatus.rejected := by
  have hfr := findBooking_setBookingStatus db t.booking_id b
    BookingStatus.rejected hfb
  rcases hinf : findInfrastructure db b.infrastructure_id with _ | f <;>
    simp [handle, hft, hfb, hst, hc, he, hinf, bookingStatusOf, hfr, successResp]

theorem url_action_trusted_over_binding_witness :
    findToken dbPending "t1" envOk.now
      = some ⟨1, "t1", 42, "approve", false, none, 100⟩ ∧
    (⟨1, "t1", 42, "approve", false, none, 100⟩ : TokenRecord).action
      = "approve" ∧
    (handle dbPending envOk "reject" "t1").resp.success = true ∧
    bookingStatusOf (handle dbPending envOk "reject" "t1").db 42
      = some BookingStatus.rejected := by
  have h := url_action_trusted_over_binding dbPending envOk "t1"
    ⟨1, "t1", 42, "approve", false, none, 100⟩ ⟨42, 5, BookingStatus.pending⟩
    (by decide) rfl (by decide) (by decide) rfl rfl
  exact ⟨by decide, rfl, h.1, h.2.2.2⟩

/-- C1 fails on the code: on the token action handler's success path the
notification dispatcher is invoked strictly before the transaction commits
(the `sendBookingStatusUpdate` await precedes `connection.commit()` in the
`try` block), and when the commit subsequently throws, the notification has
already fired on a transaction that is then rolled back. -/
theorem notification_dispatched_before_commit :
    eventBefore (Event.sendEmail 42 BookingStatus.approved) Event.commit
      (handle dbPending envOk "approve" "t1").trace = true ∧
    Event.sendEmail 42 BookingStatus.approved
      ∈ (handle dbPending envCommitFail "approve" "t1").trace ∧
    Event.commit ∉ (handle dbPending envCommitFail "approve" "t1").trace ∧
    Event.rollback ∈ (handle dbPending envCommitFail "approve" "t1").trace := by
  decide

/-- C6: for a recognized action, the invalid-or-expired-token response is
returned exactly when no token record with the presented value exists that is
unused and expires strictly later than now; and whenever validation fails
(not found, already used, or expired alike), the full response is the one
fixed 400 record, so the three failure causes are indistinguishable. -/
theorem token_validation_collapses (db : DB) (env : Env) (act tok : String)
    (hact : act = "approve" ∨ act = "reject") :
    ((handle db env act tok).resp.kind = RespKind.invalidOrExpiredToken ↔
      ∀ t ∈ db.tokens,
        ¬(t.token = tok ∧ t.used = false ∧ env.now < t.expires)) ∧
    ((∀ t ∈ db.tokens,
        ¬(t.token = tok ∧ t.used = false ∧ env.now < t.expires)) →
      (handle db env act tok).resp = invalidTokenResp) := by
  have hchar := findToken_eq_none_iff db tok env.now
  have hcol : findToken db tok env.now = none →
      (handle db env act tok).resp = invalidTokenResp := by
    intro hft
    rcases hact with ha | ha <;> subst ha <;>
      simp [handle, hft, invalidTokenResp]
  constructor
  · constructor
    · intro hk
      rw [← hchar]
      by_contra hne
      rcases Option.ne_none_iff_exists'.mp hne with ⟨t, hft⟩
      exact handle_kind_not_invalid db env act tok t hft hk
    · intro hall
      rw [hcol (hchar.mpr hall)]
      rfl
  · intro hall
    exact hcol (hchar.mpr hall)

theorem token_validation_collapses_witness :
    (handle dbPending envOk "approve" "zzz").resp = invalidTokenResp :=
  (token_validation_collapses dbPending envOk "approve" "zzz"
    (Or.inl rfl)).2 (by decide)

/-- C2 counterexample: replaying a consumed token hits the validation query
(`used = 0`) and yields the invalid-or-expired-token response, not the
already-processed response the claim predicts (the booking is `approved`
after the first call, so the claim's pair would be
(success, AlreadyProcessed approved)). -/
theorem token_replay_counterexample :
    (handle dbPending envOk "approve" "t1").resp.success = true ∧
    (handle (handle dbPending envOk "approve" "t1").db envOk "approve"
        "t1").resp.kind = RespKind.invalidOrExpiredToken ∧
    (handle (handle dbPending envOk "approve" "t1").db envOk "approve"
        "t1").resp.kind ≠ RespKind.alreadyProcessed BookingStatus.approved := by
  decide

/-- C2 (amended): when the first of two sequential `execute` calls with the
same token succeeds, the second call reports InvalidOrExpiredToken (the
consumed token fails the validation query) — never a second success and
never AlreadyProcessed — provided token values are unique in the registry. -/
theorem token_replay_second_call_invalid (db : DB) (env₁ env₂ : Env)
    (act tok : String) (huniq : DB.tokensUnique db)
    (h : (handle db env₁ act tok).resp.success = true) :
    (handle (handle db env₁ act tok).db env₂ act tok).resp
      = invalidTokenResp := by
  obtain ⟨hact, t, hft, htoks⟩ := handle_success_inversion db env₁ act tok h
  have hnone : findToken (handle db env₁ act tok).db tok env₂.now = none := by
    unfold findToken
    rw [htoks]
    exact find?_none_after_mark db.tokens tok env₁.now env₂.now env₁.now t
      huniq hft
  generalize (handle db env₁ act tok).db = db₂ at hnone ⊢
  rcases hact with ha | ha <;> subst ha <;>
    simp [handle, hnone, invalidTokenResp]

theorem token_replay_second_call_invalid_witness :
    (handle dbPending envOk "approve" "t1").resp.success = true ∧
    (handle (handle dbPending envOk "approve" "t1").db envOk "approve"
        "t1").resp = invalidTokenResp := by
  have hu : DB.tokensUnique dbPending := by
    unfold DB.tokensUnique
    decide
  exact ⟨by decide,
    token_replay_second_call_invalid dbPending envOk envOk "approve" "t1" hu
      (by decide)⟩

/-- C4 fails on the code: the notification send is awaited inside the `try`
block before the commit, so a dispatcher failure lands in the `catch` block,
which rolls the transaction back (booking back to `pending`, token not
consumed) and converts the response into a 500 infrastructure error. -/
theorem email_failure_rolls_back_transition :
    (handle dbPending envEmailFail "approve" "t1").resp.status = 500 ∧
    (handle dbPending envEmailFail "approve" "t1").resp.success = false ∧
    (handle dbPending envEmailFail "approve" "t1").resp.kind
      = RespKind.serverError ∧
    (handle dbPending envEmailFail "approve" "t1").db = dbPending ∧
    Event.sendEmail 42 BookingStatus.approved
      ∈ (handle dbPending envEmailFail "approve" "t1").trace ∧
    Event.rollback ∈ (handle dbPending envEmailFail "approve" "t1").trace ∧
    bookingStatusOf (handle dbPending envEmailFail "approve" "t1").db 42
      = some BookingStatus.pending := by
  decide

end EmailActions
